import Mathlib

/-!
Verification of the ai-report-analyzer core pipeline.

We give a shallow embedding of the data-transformation core of the
repository: the tabular loader (`app/ingestion/loader.py`), the
aggregator and context builder (`app/processing/aggregator.py`), and the
upload orchestration with its insight-response normalization
(`app/main.py`, `upload_report`).

Modelling conventions:
* pandas floating-point values are modelled exactly as `PValue`:
  either a rational number or the missing-value sentinel NaN.  All
  statistics in the claims involve exact decimal arithmetic, so rational
  semantics is faithful for them.
* A pandas `DataFrame` is a row count together with a list of named,
  typed columns (`int64`, `float64`, or `object`).  The row count is
  kept explicitly because a pandas frame can have rows and no columns.
* `pd.read_csv` is modelled for the fragment exercised by the pipeline:
  newline-separated records, comma-separated fields, a header row,
  blank lines skipped, empty fields read as missing, and per-column
  dtype inference (all-integer -> int64, all-numeric-or-missing ->
  float64, otherwise object; an all-missing column is float64 and a
  column with no rows is object, as in pandas).
* `json.loads` is an external library call; it is modelled as an
  explicit parameter `parse : String → Option Json` of the
  normalization step, and the Gemini client (absent from the core, an
  external collaborator) as a parameter `ai : String → Except String String`.
-/

/-- Split a character list at every occurrence of `sep` (model of
splitting a decoded text into lines / a record into fields). -/
def splitOnChar (sep : Char) : List Char → List (List Char)
  | [] => [[]]
  | c :: rest =>
    let groups := splitOnChar sep rest
    if c = sep then
      [] :: groups
    else
      match groups with
      | [] => [[c]]
      | g :: gs => (c :: g) :: gs

/-- The non-blank lines of a decoded text (pandas `read_csv` skips blank
lines by default). -/
def nonBlankLines (s : String) : List String :=
  ((splitOnChar (Char.ofNat 10) s.data).map String.mk).filter (fun l => l ≠ "")

/-- The comma-separated fields of one record. -/
def recordFields (s : String) : List String :=
  (splitOnChar (Char.ofNat 44) s.data).map String.mk

/-- Numeric value of a digit list, most significant digit first. -/
def digitsToNat (cs : List Char) : Nat :=
  cs.foldl (fun a c => a * 10 + (c.toNat - 48)) 0

/-- Parse a non-empty all-digit character list as a natural number. -/
def parseNatDigits (cs : List Char) : Option Nat :=
  if cs ≠ [] ∧ cs.all Char.isDigit then some (digitsToNat cs) else none

/-- Strip an optional leading sign, returning the sign and the rest. -/
def splitSign : List Char → Bool × List Char
  | c :: rest =>
    if c = Char.ofNat 45 then (true, rest)
    else if c = Char.ofNat 43 then (false, rest)
    else (false, c :: rest)
  | [] => (false, [])

/-- Parse a cell as an integer literal (pandas int64 inference). -/
def parseIntStr (s : String) : Option Int :=
  let (neg, body) := splitSign s.data
  (parseNatDigits body).map (fun n => if neg then -(n : Int) else (n : Int))

/-- Parse a decimal digit string pair `intPart.fracPart` as a rational. -/
def decimalToRat (intPart fracPart : List Char) : ℚ :=
  (digitsToNat intPart : ℚ) + (digitsToNat fracPart : ℚ) / ((10 : ℚ) ^ fracPart.length)

/-- Parse a cell as a decimal number (pandas float64 inference); accepts
integer literals and decimal-point literals such as `1.`, `.5`, `2.75`. -/
def parseRatStr (s : String) : Option ℚ :=
  let (neg, body) := splitSign s.data
  let sign : ℚ → ℚ := fun q => if neg then -q else q
  match splitOnChar (Char.ofNat 46) body with
  | [ip] => (parseNatDigits ip).map (fun n => sign (n : ℚ))
  | [ip, fp] =>
    if (ip ≠ [] ∨ fp ≠ []) ∧ ip.all Char.isDigit ∧ fp.all Char.isDigit then
      some (sign (decimalToRat ip fp))
    else none
  | _ => none

/-- A typed column of a loaded DataFrame: pandas dtype `int64`,
`float64` (with NaN as `none`), or `object` (with NaN as `none`). -/
inductive Column where
  | intCol : List Int → Column
  | floatCol : List (Option ℚ) → Column
  | textCol : List (Option String) → Column
deriving DecidableEq

/-- Number of entries stored in a column. -/
def Column.length : Column → Nat
  | .intCol vs => vs.length
  | .floatCol vs => vs.length
  | .textCol vs => vs.length

/-- Whether the column dtype is `float64` or `int64` (the dtypes selected
by `aggregate_data` via `select_dtypes`). -/
def Column.isNumeric : Column → Bool
  | .intCol _ => true
  | .floatCol _ => true
  | .textCol _ => false

/-- Whether the column dtype is `object` (text/other). -/
def Column.isText : Column → Bool
  | .textCol _ => true
  | _ => false

/-- A pandas DataFrame: an explicit row count and the named, typed
columns, in order.  The row count is explicit because pandas allows a
frame with a non-empty index and no columns. -/
structure DataFrame where
  nrows : Nat
  cols : List (String × Column)
deriving DecidableEq

/-- Well-formedness: every column stores exactly `nrows` entries. -/
def DataFrame.WF (df : DataFrame) : Prop :=
  ∀ nc ∈ df.cols, (Prod.snd nc).length = df.nrows

/-- pandas `DataFrame.empty`: true iff any axis has length zero. -/
def DataFrame.isEmptyDf (df : DataFrame) : Bool :=
  df.nrows = 0 || df.cols.isEmpty

/-- A cell is missing when the field is the empty string (the fragment of
pandas NA detection the pipeline exercises). -/
def cellMissing (s : String) : Bool := s = ""

/-- pandas per-column dtype inference on the raw field strings of one
column: a column with no rows is `object`; an all-missing column is
`float64`; an all-integer column with no missing values is `int64`; a
column whose non-missing values all parse as numbers is `float64`;
anything else is `object`. -/
def inferColumn (fields : List String) : Column :=
  if fields = [] then .textCol []
  else if fields.all (fun f => cellMissing f) then
    .floatCol (fields.map (fun _ => none))
  else if fields.all (fun f => ¬ cellMissing f ∧ (parseIntStr f).isSome) then
    .intCol (fields.map (fun f => (parseIntStr f).getD 0))
  else if fields.all (fun f => cellMissing f ∨ (parseRatStr f).isSome) then
    .floatCol (fields.map (fun f => if cellMissing f then none else parseRatStr f))
  else
    .textCol (fields.map (fun f => if cellMissing f then none else some f))

/-- Errors of the loading step (pandas `EmptyDataError` when there are no
columns to parse at all, `ParserError` when a record has more fields
than the header). -/
inductive LoadError where
  | emptyData : LoadError
  | parserError : LoadError
deriving DecidableEq

/-- `load_csv_from_bytes` (loader.py): `pd.read_csv` on the decoded
byte content.  The header row names the columns; each data record is
split into fields, records shorter than the header are NaN-filled and
records longer than the header are a parse error; column dtypes are
inferred by `inferColumn`. -/
def load_csv_from_bytes (contents : String) : Except LoadError DataFrame :=
  match nonBlankLines contents with
  | [] => .error .emptyData
  | header :: records =>
    let names := recordFields header
    let cells := records.map recordFields
    if cells.any (fun r => names.length < r.length) then
      .error .parserError
    else
      .ok { nrows := cells.length
            cols := names.enum.map
              (fun jn => (jn.2, inferColumn (cells.map (fun r => r.getD jn.1 "")))) }

/-- `validate_dataframe` (loader.py): raise `ValueError("Empty dataframe")`
when `df.empty`, otherwise return `True`. -/
def validate_dataframe (df : DataFrame) : Except String Bool :=
  if df.isEmptyDf then .error "Empty dataframe" else .ok true

/-- A pandas scalar statistic: an exact rational or the NaN sentinel. -/
inductive PValue where
  | num : ℚ → PValue
  | nan : PValue
deriving DecidableEq

/-- The per-column statistics record built by `aggregate_data`. -/
structure ColumnStats where
  mean : PValue
  sum : PValue
  min : PValue
  max : PValue
deriving DecidableEq

/-- The non-missing values of a column, as rationals (text columns have
no numeric values). -/
def Column.valuesQ : Column → List ℚ
  | .intCol vs => vs.map (fun i => (i : ℚ))
  | .floatCol vs => vs.filterMap id
  | .textCol _ => []

/-- pandas `mean`/`sum`/`min`/`max` with default `skipna=True`: computed
over the non-missing values; on an all-missing column the sum is `0`
and the other statistics are NaN. -/
def colStats (c : Column) : ColumnStats :=
  match c.valuesQ with
  | [] => { mean := .nan, sum := .num 0, min := .nan, max := .nan }
  | v :: rest =>
    { mean := .num ((v :: rest).sum / ((v :: rest).length : ℚ))
      sum := .num ((v :: rest).sum)
      min := .num (rest.foldl Min.min v)
      max := .num (rest.foldl Max.max v) }

/-- The columns kept by `df.select_dtypes(include=['float64', 'int64'])`,
in original order. -/
def numericColumns (df : DataFrame) : List (String × Column) :=
  df.cols.filter (fun nc => nc.2.isNumeric)

/-- `aggregate_data` (aggregator.py): the statistics report, one entry
per numeric column, in column order. -/
def aggregate_data (df : DataFrame) : List (String × ColumnStats) :=
  (numericColumns df).map (fun nc => (nc.1, colStats nc.2))

/-- Truncate a column to its first `n` entries (one column of
`df.head(n)`). -/
def Column.take (n : Nat) : Column → Column
  | .intCol vs => .intCol (vs.take n)
  | .floatCol vs => .floatCol (vs.take n)
  | .textCol vs => .textCol (vs.take n)

/-- pandas `df.head(n)`: the first `min n nrows` rows of the frame. -/
def DataFrame.headRows (df : DataFrame) (n : Nat) : DataFrame :=
  { nrows := Nat.min n df.nrows
    cols := df.cols.map (fun nc => (nc.1, nc.2.take n)) }

/-- Textual rendering of a rational in the context text.  The exact
number formatting of pandas/Python is abbreviated: integers render as
their digits, other rationals as `num/den`. -/
def ratRender (q : ℚ) : String :=
  if q.den = 1 then toString q.num else toString q.num ++ "/" ++ toString q.den

/-- Textual rendering of a scalar statistic. -/
def pvalRender : PValue → String
  | .num q => ratRender q
  | .nan => "nan"

/-- Rendering of one table cell of row `i` of a column (missing values
print as NaN, as in pandas `to_string`). -/
def Column.cellRender : Column → Nat → String
  | .intCol vs, i => toString (vs.getD i 0)
  | .floatCol vs, i =>
    match vs.getD i none with
    | some q => ratRender q
    | none => "NaN"
  | .textCol vs, i => (vs.getD i none).getD "NaN"

/-- Rendering of data row `i` of a frame: the index label followed by
the cells (pandas `to_string` prints the index first). -/
def renderRow (df : DataFrame) (i : Nat) : String :=
  toString i ++ "  " ++ String.intercalate "  " (df.cols.map (fun nc => nc.2.cellRender i))

/-- The rendered data-row lines of a frame, one line per row. -/
def dataLines (df : DataFrame) : List String :=
  (List.range df.nrows).map (renderRow df)

/-- The rendered header line of a frame. -/
def headerLine (df : DataFrame) : String :=
  String.intercalate "  " (df.cols.map (fun nc => nc.1))

/-- pandas `DataFrame.to_string`: the header line followed by one line
per data row. -/
def dfToString (df : DataFrame) : String :=
  String.intercalate "\n" (headerLine df :: dataLines df)

/-- Python `str` of one per-column statistics dict. -/
def statDictString (s : ColumnStats) : String :=
  "\x7b\x27mean\x27: " ++ pvalRender s.mean ++ ", \x27sum\x27: " ++ pvalRender s.sum ++
    ", \x27min\x27: " ++ pvalRender s.min ++ ", \x27max\x27: " ++ pvalRender s.max ++ "\x7d"

/-- Python `str` of the statistics report dict. -/
def statsString (stats : List (String × ColumnStats)) : String :=
  "\x7b" ++
    String.intercalate ", "
      (stats.map (fun ns => "\x27" ++ ns.1 ++ "\x27: " ++ statDictString ns.2)) ++
  "\x7d"

/-- `prepare_context_for_ai` (aggregator.py): the context text
`"Data Head:\n{df.head(5).to_string()}\n\nStatistics:\n{str(stats)}"`. -/
def prepare_context_for_ai (df : DataFrame) (stats : List (String × ColumnStats)) : String :=
  "Data Head:\n" ++ dfToString (df.headRows 5) ++ "\n\nStatistics:\n" ++ statsString stats

/-- A parsed JSON value (the possible results of `json.loads`). -/
inductive Json where
  | null : Json
  | bool : Bool → Json
  | num : ℚ → Json
  | str : String → Json
  | arr : List Json → Json
  | obj : List (String × Json) → Json

mutual

/-- Python `str()` of a value loaded by `json.loads` (dict/list repr;
string quoting abbreviated to plain single quotes, numbers via
`ratRender`). -/
def strPy : Json → String
  | .null => "None"
  | .bool b => if b then "True" else "False"
  | .num q => ratRender q
  | .str s => "\x27" ++ s ++ "\x27"
  | .arr es => "[" ++ String.intercalate ", " (strPyList es) ++ "]"
  | .obj fs => "\x7b" ++ String.intercalate ", " (strPyFields fs) ++ "\x7d"

/-- Renderings of the elements of a JSON array. -/
def strPyList : List Json → List String
  | [] => []
  | e :: es => strPy e :: strPyList es

/-- Renderings of the fields of a JSON object. -/
def strPyFields : List (String × Json) → List String
  | [] => []
  | (k, v) :: fs => ("\x27" ++ k ++ "\x27: " ++ strPy v) :: strPyFields fs

end

/-- Python `dict.get key default` on the fields of a parsed JSON object
(for duplicate keys, `json.loads` keeps the last occurrence). -/
def jsonGet (fields : List (String × Json)) (key : String) (dflt : Json) : Json :=
  match fields.reverse.find? (fun kv => kv.1 = key) with
  | some kv => kv.2
  | none => dflt

/-- The normalized insight record built from the raw AI response
(summary text and the value stored as `insight_score`). -/
structure InsightResult where
  summary_text : String
  insight_score : Json

/-- The body of the inner `try` of `upload_report` (main.py lines
76-79): `json.loads`, `str` of the parsed value, `dict.get` of
`"overall_score"` with default `0.0`.  It fails when `json.loads`
raises or when the parsed value is not a dict (`.get` raises
`AttributeError`). -/
def normalize_attempt (parse : String → Option Json) (raw : String) :
    Except String InsightResult :=
  match parse raw with
  | none => .error "json.loads failed"
  | some (Json.obj fields) =>
    .ok { summary_text := strPy (Json.obj fields)
          insight_score := jsonGet fields "overall_score" (Json.num 0) }
  | some _ => .error "AttributeError"

/-- The normalization step of `upload_report` (main.py lines 76-82):
the inner `try` with its bare `except` fallback, which takes the raw
response verbatim as summary and `50.0` as score. -/
def normalize_response (parse : String → Option Json) (raw : String) : InsightResult :=
  match normalize_attempt parse raw with
  | .ok r => r
  | .error _ => { summary_text := raw, insight_score := Json.num 50 }

/-- The success payload persisted and returned by `upload_report`. -/
structure UploadResponse where
  filename : String
  total_rows : Nat
  summary_text : String
  insight_score : Json

/-- Observable outcome of one `upload_report` call: the response (or the
error caught by the outer handler), the number of calls made to the
external insight collaborator, and the number of database writes. -/
structure UploadOutcome where
  response : Except String UploadResponse
  aiCalls : Nat
  dbWrites : Nat

/-- The error message surfaced for each loading failure. -/
def loadErrorMessage : LoadError → String
  | .emptyData => "No columns to parse from file"
  | .parserError => "Error tokenizing data"

/-- `upload_report` (main.py): load, validate, aggregate, build the
context, call the external insight collaborator `ai`, normalize its
response, persist.  Any step failure propagates to the outer handler
and aborts the remaining steps. -/
def upload_report (parse : String → Option Json) (ai : String → Except String String)
    (filename : String) (contents : String) : UploadOutcome :=
  match load_csv_from_bytes contents with
  | .error e => { response := .error (loadErrorMessage e), aiCalls := 0, dbWrites := 0 }
  | .ok df =>
    match validate_dataframe df with
    | .error msg => { response := .error msg, aiCalls := 0, dbWrites := 0 }
    | .ok _ =>
      let stats := aggregate_data df
      let context := prepare_context_for_ai df stats
      match ai context with
      | .error msg => { response := .error msg, aiCalls := 1, dbWrites := 0 }
      | .ok raw =>
        let r := normalize_response parse raw
        { response := .ok { filename := filename
                            total_rows := df.nrows
                            summary_text := r.summary_text
                            insight_score := r.insight_score }
          aiCalls := 1
          dbWrites := 1 }

/-! ## Helper lemmas -/

theorem foldl_min_le_init (l : List ℚ) : ∀ a : ℚ, l.foldl Min.min a ≤ a := by
  induction l with
  | nil => intro a; exact le_refl a
  | cons b t ih => intro a; exact le_trans (ih (Min.min a b)) (min_le_left a b)

theorem foldl_min_le_mem (l : List ℚ) : ∀ a v : ℚ, v ∈ l → l.foldl Min.min a ≤ v := by
  induction l with
  | nil => intro a v hv; cases hv
  | cons b t ih =>
    intro a v hv
    rcases List.mem_cons.mp hv with h | h
    · subst h; exact le_trans (foldl_min_le_init t (Min.min a v)) (min_le_right a v)
    · exact ih (Min.min a b) v h

theorem foldl_min_le (a v : ℚ) (l : List ℚ) (hv : v ∈ a :: l) : l.foldl Min.min a ≤ v := by
  rcases List.mem_cons.mp hv with h | h
  · subst h; exact foldl_min_le_init l v
  · exact foldl_min_le_mem l a v h

theorem le_foldl_max_init (l : List ℚ) : ∀ a : ℚ, a ≤ l.foldl Max.max a := by
  induction l with
  | nil => intro a; exact le_refl a
  | cons b t ih => intro a; exact le_trans (le_max_left a b) (ih (Max.max a b))

theorem le_foldl_max_mem (l : List ℚ) : ∀ a v : ℚ, v ∈ l → v ≤ l.foldl Max.max a := by
  induction l with
  | nil => intro a v hv; cases hv
  | cons b t ih =>
    intro a v hv
    rcases List.mem_cons.mp hv with h | h
    · subst h; exact le_trans (le_max_right a v) (le_foldl_max_init t (Max.max a v))
    · exact ih (Max.max a b) v h

theorem le_foldl_max (a v : ℚ) (l : List ℚ) (hv : v ∈ a :: l) : v ≤ l.foldl Max.max a := by
  rcases List.mem_cons.mp hv with h | h
  · subst h; exact le_foldl_max_init l v
  · exact le_foldl_max_mem l a v h

theorem mem_aggregate_of_mem {df : DataFrame} {name : String} {col : Column}
    (hmem : (name, col) ∈ df.cols) (hnum : col.isNumeric = true) :
    (name, colStats col) ∈ aggregate_data df := by
  have hfil : (name, col) ∈ numericColumns df := by
    rw [numericColumns, List.mem_filter]
    exact ⟨hmem, hnum⟩
  exact List.mem_map_of_mem _ hfil

theorem colStats_sum (col : Column) : (colStats col).sum = PValue.num col.valuesQ.sum := by
  rcases hv : col.valuesQ with _ | ⟨a, rest⟩ <;> simp [colStats, hv]

/-! ## Concrete instances used by the witnesses -/

/-- A sample parse function: one fixed structured response with an
`overall_score` of 92.5; everything else fails to parse. -/
def demoParse : String → Option Json := fun s =>
  if s = "resp" then some (Json.obj [("overall_score", Json.num (92.5 : ℚ))]) else none

/-- The frame loaded from `"a,b\n1,2\n"`. -/
def dfAB : DataFrame :=
  { nrows := 1, cols := [("a", Column.intCol [1]), ("b", Column.intCol [2])] }

/-- A frame with one numeric and one text column. -/
def dfMixed : DataFrame :=
  { nrows := 2
    cols := [("a", Column.intCol [1, 2]), ("b", Column.textCol [some "x", some "y"])] }

/-! ## Claims -/

/-- Claim C1: in the insight-response normalization, a raw response that
parses as a structured object whose `"overall_score"` field reads as
92.5 yields `score = 92.5` with `summaryText` the textual rendering of
the parsed structure, and a raw response that fails to parse yields
`summaryText` equal to the raw response verbatim with the fixed default
score 50.0. -/
theorem C1_normalization (parse : String → Option Json) :
    (∀ raw fields, parse raw = some (Json.obj fields) →
      jsonGet fields "overall_score" (Json.num 0) = Json.num (92.5 : ℚ) →
      (normalize_response parse raw).insight_score = Json.num (92.5 : ℚ) ∧
      (normalize_response parse raw).summary_text = strPy (Json.obj fields)) ∧
    (∀ raw, parse raw = none →
      (normalize_response parse raw).summary_text = raw ∧
      (normalize_response parse raw).insight_score = Json.num 50) := by
  constructor
  · intro raw fields hp hs
    simp [normalize_response, normalize_attempt, hp, hs]
  · intro raw hp
    simp [normalize_response, normalize_attempt, hp]

/-- Witness for C1 at a concrete structured response and a concrete
plain-text response. -/
theorem C1_witness :
    (normalize_response demoParse "resp").insight_score = Json.num (92.5 : ℚ) ∧
    (normalize_response demoParse "resp").summary_text
      = strPy (Json.obj [("overall_score", Json.num (92.5 : ℚ))]) ∧
    (normalize_response demoParse "Sales are strong.").summary_text = "Sales are strong." ∧
    (normalize_response demoParse "Sales are strong.").insight_score = Json.num 50 := by
  have h1 := (C1_normalization demoParse).1 "resp"
    [("overall_score", Json.num (92.5 : ℚ))] (by simp [demoParse]) rfl
  have h2 := (C1_normalization demoParse).2 "Sales are strong." (by simp [demoParse])
  exact ⟨h1.1, h1.2, h2.1, h2.2⟩

/-- Claim C2: for every raw response string, including malformed or
non-object structured text, the normalization step yields an
InsightResult and no parse error reaches the caller: whenever loading,
validation and the external call succeed, `upload_report` answers with
a success response built from the normalized summary and score, for
every possible parse outcome. -/
theorem C2_no_parse_error (parse : String → Option Json)
    (ai : String → Except String String) (filename contents : String)
    (df : DataFrame) (raw : String)
    (hload : load_csv_from_bytes contents = Except.ok df)
    (hvalid : df.isEmptyDf = false)
    (hai : ai (prepare_context_for_ai df (aggregate_data df)) = Except.ok raw) :
    (upload_report parse ai filename contents).response =
      Except.ok { filename := filename
                  total_rows := df.nrows
                  summary_text := (normalize_response parse raw).summary_text
                  insight_score := (normalize_response parse raw).insight_score } ∧
    (upload_report parse ai filename contents).response.isOk = true := by
  have hresp : (upload_report parse ai filename contents).response =
      Except.ok { filename := filename
                  total_rows := df.nrows
                  summary_text := (normalize_response parse raw).summary_text
                  insight_score := (normalize_response parse raw).insight_score } := by
    simp [upload_report, hload, validate_dataframe, hvalid, hai]
  exact ⟨hresp, by rw [hresp]; rfl⟩

/-- Witness for C2: a parse function that always fails, on a concrete
upload; the response is still a success. -/
theorem C2_witness :
    (upload_report (fun _ => none) (fun _ => Except.ok "Sales are strong.")
      "f.csv" "a,b\n1,2\n").response.isOk = true :=
  (C2_no_parse_error (fun _ => none) (fun _ => Except.ok "Sales are strong.")
    "f.csv" "a,b\n1,2\n" dfAB "Sales are strong." rfl rfl rfl).2

/-- Claim C9: a raw response parsing as a structured object with no
`"overall_score"` field yields score 0.0 (not the 50.0 parse-failure
default) and `summaryText` equal to the rendering of the parsed object
rather than the raw text. -/
theorem C9_absent_score (parse : String → Option Json) (raw : String)
    (fields : List (String × Json))
    (hp : parse raw = some (Json.obj fields))
    (habs : ∀ kv ∈ fields, Prod.fst kv ≠ "overall_score") :
    (normalize_response parse raw).insight_score = Json.num 0 ∧
    (normalize_response parse raw).summary_text = strPy (Json.obj fields) := by
  have hfind : fields.reverse.find? (fun kv => kv.1 = "overall_score") = none := by
    rw [List.find?_eq_none]
    intro kv hkv
    simpa using habs kv (List.mem_reverse.mp hkv)
  simp [normalize_response, normalize_attempt, hp, jsonGet, hfind]

/-- Witness for C9 at a concrete object without an overall score. -/
theorem C9_witness :
    (normalize_response (fun _ => some (Json.obj [("note", Json.str "hi")])) "x").insight_score
      = Json.num 0 ∧
    (normalize_response (fun _ => some (Json.obj [("note", Json.str "hi")])) "x").summary_text
      = strPy (Json.obj [("note", Json.str "hi")]) :=
  C9_absent_score (fun _ => some (Json.obj [("note", Json.str "hi")])) "x"
    [("note", Json.str "hi")] rfl (by decide)

/-- Counterexample to claim C4 as stated: on the header-only input
`"a,b\n"` the loader does not fail; it returns an empty frame with the
header columns. -/
theorem C4_counterexample :
    (load_csv_from_bytes "a,b\n").isOk = true ∧
    load_csv_from_bytes "a,b\n" =
      Except.ok { nrows := 0, cols := [("a", Column.textCol []), ("b", Column.textCol [])] } :=
  ⟨rfl, rfl⟩

/-- Claim C4 (amended): for every decoded input consisting of a header
row and zero data rows, the Loader returns an empty Dataset with the
header's columns and zero rows, and the empty dataset is then rejected
by the Validator, so the pipeline still fails. -/
theorem C4_header_only (contents header : String)
    (h : nonBlankLines contents = [header]) :
    ∃ df, load_csv_from_bytes contents = Except.ok df ∧ df.nrows = 0 ∧
      df.cols.map Prod.fst = recordFields header ∧
      validate_dataframe df = Except.error "Empty dataframe" := by
  refine ⟨{ nrows := 0
            cols := (recordFields header).enum.map
              (fun jn => (jn.2, inferColumn [])) }, ?_, rfl, ?_, rfl⟩
  · rw [load_csv_from_bytes, h]
    simp
  · rw [List.map_map]
    exact List.enum_map_snd (recordFields header)

/-- Witness for the amended C4 at the concrete header-only input. -/
theorem C4_witness :
    nonBlankLines "a,b\n" = ["a,b"] ∧
    (∃ df, load_csv_from_bytes "a,b\n" = Except.ok df ∧ df.nrows = 0 ∧
      df.cols.map Prod.fst = recordFields "a,b" ∧
      validate_dataframe df = Except.error "Empty dataframe") :=
  ⟨by decide, C4_header_only "a,b\n" "a,b" (by decide)⟩

/-- Counterexample to claim C5 as stated: a frame with two rows and no
columns has at least one row, yet the Validator rejects it (pandas
`df.empty` is true when any axis has length zero). -/
theorem C5_counterexample :
    1 ≤ (DataFrame.mk 2 []).nrows ∧
    validate_dataframe (DataFrame.mk 2 []) = Except.error "Empty dataframe" :=
  ⟨by decide, rfl⟩

/-- Claim C5 (amended): the Validator fails with the empty-dataset error
exactly when the row count is zero or the column list is empty, and
succeeds exactly on frames with at least one row and at least one
column. -/
theorem C5_validator (df : DataFrame) :
    (validate_dataframe df = Except.error "Empty dataframe" ↔
      (df.nrows = 0 ∨ df.cols = [])) ∧
    (validate_dataframe df = Except.ok true ↔
      (df.nrows ≠ 0 ∧ df.cols ≠ [])) := by
  rw [validate_dataframe, DataFrame.isEmptyDf]
  by_cases h1 : df.nrows = 0 <;> by_cases h2 : df.cols = [] <;>
    simp [h1, h2, List.isEmpty_iff]

/-- Claim C6: any loading or validation failure stops the pipeline
before the external insight collaborator is called and before any
database write: the upload reports an error, zero external calls and
zero writes. -/
theorem C6_fail_before_external (parse : String → Option Json)
    (ai : String → Except String String) (filename contents : String)
    (hfail : (load_csv_from_bytes contents).isOk = false ∨
      ∃ df, load_csv_from_bytes contents = Except.ok df ∧ df.isEmptyDf = true) :
    (upload_report parse ai filename contents).aiCalls = 0 ∧
    (upload_report parse ai filename contents).dbWrites = 0 ∧
    (upload_report parse ai filename contents).response.isOk = false := by
  rcases hfail with h | ⟨df, hdf, hempty⟩
  · rcases hl : load_csv_from_bytes contents with e | df
    · simp [upload_report, hl, Except.isOk, Except.toBool]
    · rw [hl] at h
      simp [Except.isOk, Except.toBool] at h
  · simp [upload_report, hdf, validate_dataframe, hempty, Except.isOk, Except.toBool]

/-- Witness for C6: the concrete header-only upload `"a,b\n"` makes no
external call and no write. -/
theorem C6_witness :
    (upload_report (fun _ => none) (fun _ => Except.ok "ok") "f.csv" "a,b\n").aiCalls = 0 ∧
    (upload_report (fun _ => none) (fun _ => Except.ok "ok") "f.csv" "a,b\n").dbWrites = 0 ∧
    (upload_report (fun _ => none) (fun _ => Except.ok "ok") "f.csv" "a,b\n").response.isOk
      = false :=
  C6_fail_before_external (fun _ => none) (fun _ => Except.ok "ok") "f.csv" "a,b\n"
    (Or.inr ⟨{ nrows := 0, cols := [("a", Column.textCol []), ("b", Column.textCol [])] },
      rfl, rfl⟩)

/-- Claim C3: the statistics report has as keys exactly the numeric
columns (never a text column, given distinct column names), and for
every numeric column the reported entry carries the arithmetic sum of
the column's (non-missing) values while the reported min and max bound
every value. -/
theorem C3_aggregator (df : DataFrame)
    (hnodup : (df.cols.map Prod.fst).Nodup) :
    ((aggregate_data df).map Prod.fst = (numericColumns df).map Prod.fst) ∧
    (∀ name col, (name, col) ∈ df.cols → col.isText = true →
      ¬ ∃ s, (name, s) ∈ aggregate_data df) ∧
    (∀ name col, (name, col) ∈ numericColumns df →
      (name, colStats col) ∈ aggregate_data df ∧
      (colStats col).sum = PValue.num col.valuesQ.sum ∧
      (∀ v ∈ col.valuesQ, ∃ mn mx, (colStats col).min = PValue.num mn ∧
        (colStats col).max = PValue.num mx ∧ mn ≤ v ∧ v ≤ mx)) := by
  refine ⟨?_, ?_, ?_⟩
  · simp [aggregate_data, List.map_map]
  · rintro name col hmem htext ⟨s, hs⟩
    rw [aggregate_data, List.mem_map] at hs
    rcases hs with ⟨nc, hncmem, heq⟩
    rw [numericColumns, List.mem_filter] at hncmem
    have hname : nc.1 = name := congrArg Prod.fst heq
    have hpair : (name, col) = nc :=
      List.inj_on_of_nodup_map hnodup hmem hncmem.1 hname.symm
    have hnum : col.isNumeric = true := by
      rw [← hpair] at hncmem
      exact hncmem.2
    cases col <;> simp_all [Column.isText, Column.isNumeric]
  · intro name col hmem
    rw [numericColumns, List.mem_filter] at hmem
    refine ⟨mem_aggregate_of_mem hmem.1 hmem.2, colStats_sum col, ?_⟩
    intro v hv
    rcases hl : col.valuesQ with _ | ⟨a, rest⟩
    · rw [hl] at hv; cases hv
    · rw [hl] at hv
      exact ⟨rest.foldl Min.min a, rest.foldl Max.max a,
        by simp [colStats, hl], by simp [colStats, hl],
        foldl_min_le a v rest hv, le_foldl_max a v rest hv⟩

/-- Witness for C3 on a concrete frame with one numeric and one text
column: the report keys are exactly the numeric column. -/
theorem C3_witness : (aggregate_data dfMixed).map Prod.fst = ["a"] := by
  have h := C3_aggregator dfMixed (by decide)
  rw [h.1]
  decide

/-- Claim C7: the context text always renders the first `min 5 rowCount`
rows, then the fixed `"Statistics:"` marker, then the statistics; the
row sample never exceeds five rendered data rows. -/
theorem C7_context_shape (df : DataFrame) (stats : List (String × ColumnStats)) :
    (∃ pre post,
      prepare_context_for_ai df stats = pre ++ "Statistics:" ++ post ∧
      pre = "Data Head:\n" ++ dfToString (df.headRows 5) ++ "\n\n" ∧
      post = "\n" ++ statsString stats) ∧
    (dataLines (df.headRows 5)).length = Nat.min 5 df.nrows ∧
    (dataLines (df.headRows 5)).length ≤ 5 := by
  have hlen : (dataLines (df.headRows 5)).length = Nat.min 5 df.nrows := by
    simp [dataLines, DataFrame.headRows]
  refine ⟨⟨"Data Head:\n" ++ dfToString (df.headRows 5) ++ "\n\n",
    "\n" ++ statsString stats, ?_, rfl, rfl⟩, hlen, ?_⟩
  · rw [prepare_context_for_ai]
    simp only [String.append_assoc]
    congr 2
  · rw [hlen]
    exact Nat.min_le_left 5 df.nrows

/-- Claim C8: running the Loader and then the Aggregator on the concrete
CSV `"a,b\n1,2\n3,4\n5,x\n"` reports column `a` with mean 3, sum 9,
min 1, max 5, and no entry for the mixed column `b`. -/
theorem C8_end_to_end :
    ∃ df, load_csv_from_bytes "a,b\n1,2\n3,4\n5,x\n" = Except.ok df ∧
      aggregate_data df =
        [("a", { mean := PValue.num 3, sum := PValue.num 9,
                 min := PValue.num 1, max := PValue.num 5 })] ∧
      "b" ∉ (aggregate_data df).map Prod.fst := by
  refine ⟨{ nrows := 3
            cols := [("a", Column.intCol [1, 3, 5]),
                     ("b", Column.textCol [some "2", some "4", some "x"])] },
    rfl, ?_, ?_⟩
  · simp [aggregate_data, numericColumns, colStats, Column.valuesQ, Column.isNumeric]
    norm_num
  · simp [aggregate_data, numericColumns, Column.isNumeric]

/-- Claim C10: a float column all of whose values are missing is still
reported, with sum 0 and mean/min/max equal to the NaN sentinel. -/
theorem C10_all_missing (df : DataFrame) (name : String) (vals : List (Option ℚ))
    (hmem : (name, Column.floatCol vals) ∈ df.cols)
    (hall : ∀ v ∈ vals, v = none) :
    (name, { mean := PValue.nan, sum := PValue.num 0,
             min := PValue.nan, max := PValue.nan }) ∈ aggregate_data df := by
  have hempty : (Column.floatCol vals).valuesQ = [] := by
    rw [Column.valuesQ, List.filterMap_eq_nil_iff]
    exact hall
  have hmem2 := mem_aggregate_of_mem hmem rfl
  rw [show colStats (Column.floatCol vals) =
    { mean := PValue.nan, sum := PValue.num 0,
      min := PValue.nan, max := PValue.nan } from by simp [colStats, hempty]] at hmem2
  exact hmem2

/-- Witness for C10 on a concrete two-row all-missing float column. -/
theorem C10_witness :
    ("m", { mean := PValue.nan, sum := PValue.num 0,
            min := PValue.nan, max := PValue.nan }) ∈
      aggregate_data (DataFrame.mk 2 [("m", Column.floatCol [none, none])]) :=
  C10_all_missing (DataFrame.mk 2 [("m", Column.floatCol [none, none])]) "m"
    [none, none] (by decide) (by decide)
